import Mathlib

/-!
Verification of the data-access core of the Local Food Wastage Management
System dashboard (`app.py`): the relational data model (providers,
receivers, food_listings, claims), the filtered-listing query, the sidebar
filter options, the TTL read cache, the analytics catalog, and the CRUD
upsert/update statements.  Tables are embedded as lists of rows; nullable
text columns are `Option String`; SQL statement semantics are embedded as
Lean functions over that state.
-/

namespace LocalFood

/-- A row of the `providers` table: provider_id is the primary key;
`name` and `city` may be NULL (the app drops NULLs when building filter
options). -/
structure Provider where
  provider_id : Nat
  name : Option String
  type : String
  address : String
  city : Option String
  contact : String
deriving Repr, DecidableEq

/-- A row of the `receivers` table (read-only in the core). -/
structure Receiver where
  receiver_id : Nat
  name : String
  city : Option String
  contact : String
deriving Repr, DecidableEq

/-- A row of the `food_listings` table: food_id is the primary key;
`location`, `food_type` and `meal_type` may be NULL. -/
structure FoodListing where
  food_id : Nat
  food_name : String
  quantity : Nat
  expiry_date : Int
  provider_id : Nat
  provider_type : String
  location : Option String
  food_type : Option String
  meal_type : Option String
deriving Repr, DecidableEq

/-- A row of the `claims` table: claim_id is the primary key. -/
structure ClaimRow where
  claim_id : Nat
  food_id : Nat
  receiver_id : Nat
  status : String
  timestamp : Int
deriving Repr, DecidableEq

/-- The whole database state. -/
structure DB where
  providers : List Provider
  receivers : List Receiver
  food_listings : List FoodListing
  claims : List ClaimRow
deriving Repr, DecidableEq

/-! ### Narrow quantity update (`UPDATE food_listings SET quantity=:q WHERE food_id=:id`) -/

/-- Semantics of the Update Quantity handler:
`UPDATE food_listings SET quantity=:q WHERE food_id=:id;`. -/
def updateFoodListingQuantity (db : DB) (id : Nat) (qty : Nat) : DB :=
  { db with
    food_listings := db.food_listings.map fun fl =>
      if fl.food_id = id then { fl with quantity := qty } else fl }

/-! ### City parameter fallback for the one parameterized analysis -/

/-- Semantics of the bound city parameter for the analysis
"Provider contacts by city":
`city if city != "(All)" else (cities[0] if cities else "")`. -/
def providerContactsCityParam (city : String) (cities : List String) : String :=
  if city ≠ "(All)" then city
  else match cities with
    | [] => ""
    | c :: _ => c

/-! ### Upsert (`INSERT ... ON CONFLICT (<pk>) DO UPDATE SET <non-key cols>`) -/

/-- Semantics of `INSERT ... ON CONFLICT (key) DO UPDATE SET ...` over a table
held as a list of rows: when some existing row has the new row's key, each such
row is rewritten by the `DO UPDATE SET` assignment `set old new`; otherwise the
new row is inserted. -/
def upsertOnConflict (key : α → Nat) (set : α → α → α) (rows : List α) (x : α) :
    List α :=
  if rows.any (fun r => decide (key r = key x)) then
    rows.map fun r => if key r = key x then set r x else r
  else rows ++ [x]

/-- Save Provider handler: `INSERT INTO providers ... ON CONFLICT (provider_id)
DO UPDATE SET name, type, address, city, contact = EXCLUDED....`. -/
def upsertProvider (rows : List Provider) (p : Provider) : List Provider :=
  upsertOnConflict (·.provider_id)
    (fun old new =>
      { old with name := new.name, type := new.type, address := new.address,
                 city := new.city, contact := new.contact })
    rows p

/-- Save Listing handler: `INSERT INTO food_listings ... ON CONFLICT (food_id)
DO UPDATE SET food_name, quantity, expiry_date, provider_id, provider_type,
location, food_type, meal_type = EXCLUDED....`. -/
def upsertFoodListing (rows : List FoodListing) (f : FoodListing) :
    List FoodListing :=
  upsertOnConflict (·.food_id)
    (fun old new =>
      { old with food_name := new.food_name, quantity := new.quantity,
                 expiry_date := new.expiry_date, provider_id := new.provider_id,
                 provider_type := new.provider_type, location := new.location,
                 food_type := new.food_type, meal_type := new.meal_type })
    rows f

/-- Save Claim handler: `INSERT INTO claims ... ON CONFLICT (claim_id)
DO UPDATE SET food_id, receiver_id, status, timestamp = EXCLUDED....`. -/
def upsertClaim (rows : List ClaimRow) (c : ClaimRow) : List ClaimRow :=
  upsertOnConflict (·.claim_id)
    (fun old new =>
      { old with food_id := new.food_id, receiver_id := new.receiver_id,
                 status := new.status, timestamp := new.timestamp })
    rows c

/-- A provider row used in concrete examples. -/
def exProviderOld : Provider :=
  ⟨1, some "Alpha Cafe", "Restaurant", "12 A Road", some "Delhi", "111"⟩

/-- A provider row with the same primary key but all non-key columns changed. -/
def exProviderNew : Provider :=
  ⟨1, some "Beta Bakers", "Bakery", "9 B Lane", some "Pune", "222"⟩

/-- A food listing row used in concrete examples. -/
def exListing : FoodListing :=
  ⟨7, "Rice", 20, 30, 1, "Restaurant", some "Delhi", some "Vegan", some "Lunch"⟩

/-- A claim row used in concrete examples. -/
def exClaim : ClaimRow := ⟨5, 7, 3, "Pending", 12⟩

/-- A small concrete database used in witnesses. -/
def exDB : DB := ⟨[exProviderOld], [], [exListing], [exClaim]⟩

/-! ### The filtered food-listing query (`get_filtered_food_listings`) -/

/-- A row of the filtered-listing result set — the SELECT list
`fl.food_id, fl.food_name, fl.quantity, fl.expiry_date, fl.location AS city,
fl.food_type, fl.meal_type, p.provider_id, p.name AS provider_name,
p.contact AS provider_contact`. -/
structure ListingRow where
  food_id : Nat
  food_name : String
  quantity : Nat
  expiry_date : Int
  city : Option String
  food_type : Option String
  meal_type : Option String
  provider_id : Nat
  provider_name : Option String
  provider_contact : String
deriving Repr, DecidableEq

/-- The result row built from a food listing and its joined provider. -/
def rowOf (fl : FoodListing) (p : Provider) : ListingRow :=
  ⟨fl.food_id, fl.food_name, fl.quantity, fl.expiry_date, fl.location,
   fl.food_type, fl.meal_type, p.provider_id, p.name, p.contact⟩

/-- The join `FROM food_listings fl JOIN providers p ON p.provider_id = fl.provider_id`. -/
def joinListingsProviders (db : DB) : List ListingRow :=
  db.food_listings.flatMap fun fl =>
    (db.providers.filter fun p => decide (p.provider_id = fl.provider_id)).map
      (rowOf fl)

/-- The WHERE clause assembled by `get_filtered_food_listings`: an equality
condition for each dimension whose selection is not "(All)". -/
def matchesFilters (city provider food_type meal_type : String)
    (r : ListingRow) : Bool :=
  (decide (city = "(All)") || decide (r.city = some city)) &&
  (decide (provider = "(All)") || decide (r.provider_name = some provider)) &&
  (decide (food_type = "(All)") || decide (r.food_type = some food_type)) &&
  (decide (meal_type = "(All)") || decide (r.meal_type = some meal_type))

/-- The ordering `ORDER BY fl.expiry_date ASC, fl.quantity DESC` as a boolean
comparison. -/
def listingLE (a b : ListingRow) : Bool :=
  decide (a.expiry_date < b.expiry_date) ||
  (decide (a.expiry_date = b.expiry_date) && decide (b.quantity ≤ a.quantity))

/-- Semantics of `get_filtered_food_listings(city, provider, food_type,
meal_type)`: join food_listings with providers, keep the rows passing every
non-sentinel equality filter, order by expiry date ascending then quantity
descending. -/
def get_filtered_food_listings (db : DB)
    (city provider food_type meal_type : String) : List ListingRow :=
  ((joinListingsProviders db).filter
      (matchesFilters city provider food_type meal_type)).mergeSort listingLE

/-! ### Sidebar filter options -/

/-- A distinct-value option query (`SELECT DISTINCT ... ORDER BY ...`) followed by pandas
`.dropna().unique().tolist()`: drop NULLs, deduplicate, sort ascending. -/
def distinctNonNullSorted (vals : List (Option String)) : List String :=
  ((vals.filterMap id).dedup).mergeSort fun a b => decide (a ≤ b)

/-- The city column fed to the city option list:
`SELECT DISTINCT city FROM providers UNION SELECT DISTINCT location AS city
FROM food_listings`. -/
def cityValues (db : DB) : List (Option String) :=
  db.providers.map (·.city) ++ db.food_listings.map (·.location)

/-- The sidebar city option values (before the "(All)" sentinel). -/
def cities (db : DB) : List String := distinctNonNullSorted (cityValues db)

/-- The city selectbox options: `["(All)"] + cities`. -/
def cityOptions (db : DB) : List String := "(All)" :: cities db

/-- Provider name options: `SELECT DISTINCT name FROM providers ORDER BY name`
plus dropna/unique. -/
def provider_names (db : DB) : List String :=
  distinctNonNullSorted (db.providers.map (·.name))

/-- The provider selectbox options: `["(All)"] + provider_names`. -/
def providerOptions (db : DB) : List String := "(All)" :: provider_names db

/-- Food type options: `SELECT DISTINCT food_type FROM food_listings ORDER BY
food_type`. -/
def food_types (db : DB) : List String :=
  distinctNonNullSorted (db.food_listings.map (·.food_type))

/-- The food type selectbox options: `["(All)"] + food_types`. -/
def foodTypeOptions (db : DB) : List String := "(All)" :: food_types db

/-- Meal type options: `SELECT DISTINCT meal_type FROM food_listings ORDER BY
meal_type`. -/
def meal_types (db : DB) : List String :=
  distinctNonNullSorted (db.food_listings.map (·.meal_type))

/-- The meal type selectbox options: `["(All)"] + meal_types`. -/
def mealTypeOptions (db : DB) : List String := "(All)" :: meal_types db

/-- An empty database, for the zero-option edge case. -/
def emptyDB : DB := ⟨[], [], [], []⟩

/-! ### The read query service `q` and its 60-second cache
(`@st.cache_data(ttl=60)`) -/

/-- One entry of the `st.cache_data` store: the call key (statement text and
parameter set), the cached dataframe, and the second it was stored. -/
structure CacheEntry (κ α : Type) where
  key : κ
  value : α
  storedAt : Nat
deriving Repr, DecidableEq

/-- The TTL `ttl=60`: a cached entry serves calls for 60 seconds after it is stored. -/
def cacheTTL : Nat := 60

/-- Whether a cache entry serves the key `k` at time `now`. -/
def isFreshFor [DecidableEq κ] (now : Nat) (k : κ) (e : CacheEntry κ α) : Bool :=
  decide (e.key = k) && decide (now < e.storedAt + cacheTTL)

/-- Semantics of one call to `q`, the `@st.cache_data(ttl=60)`-decorated read
query: a fresh cached entry for the same key is returned without touching the
database; otherwise the database execution runs — on success its result is
stored (replacing any stale entry for the key), on failure the error
propagates and nothing is cached. -/
def qCall [DecidableEq κ] (cache : List (CacheEntry κ α)) (now : Nat) (k : κ)
    (exec : Unit → Except ε α) : Except ε α × List (CacheEntry κ α) :=
  match cache.find? (isFreshFor now k) with
  | some e => (Except.ok e.value, cache)
  | none =>
    match exec () with
    | Except.ok v =>
      (Except.ok v, ⟨k, v, now⟩ :: cache.filter fun en => !decide (en.key = k))
    | Except.error err => (Except.error err, cache)

/-- A first database execution, answering 1. -/
def exExecOne : Unit → Except Unit Nat := fun _ => Except.ok 1

/-- A database execution after the table changed, answering 2. -/
def exExecTwo : Unit → Except Unit Nat := fun _ => Except.ok 2

/-- The cache after `q` ran at second 0 on an empty cache. -/
def exCache1 : List (CacheEntry String Nat) := (qCall [] 0 "k" exExecOne).2

/-! ### The analytics catalog (`query_map`) -/

/-- The fixed analysis catalog, label to SQL template, exactly as in the app. -/
def query_map : List (String × String) :=
  [("Providers per city",
    "SELECT city, COUNT(*) AS provider_count FROM providers GROUP BY city ORDER BY provider_count DESC;"),
   ("Receivers per city",
    "SELECT city, COUNT(*) AS receiver_count FROM receivers GROUP BY city ORDER BY receiver_count DESC;"),
   ("Top provider type by quantity",
    "SELECT provider_type, SUM(quantity) AS total_quantity FROM food_listings GROUP BY provider_type ORDER BY total_quantity DESC LIMIT 1;"),
   ("Provider contacts by city",
    "SELECT name, contact FROM providers WHERE city = :city ORDER BY name;"),
   ("Top receiver by claims",
    "SELECT r.receiver_id, r.name, COUNT(c.claim_id) AS total_claims FROM claims c JOIN receivers r ON c.receiver_id = r.receiver_id GROUP BY r.receiver_id, r.name ORDER BY total_claims DESC LIMIT 1;"),
   ("Total available quantity (not expired)",
    "SELECT SUM(quantity) AS total_available FROM food_listings WHERE expiry_date >= CURRENT_DATE;"),
   ("City with most food listings",
    "SELECT location AS city, COUNT(*) AS listings_count FROM food_listings GROUP BY location ORDER BY listings_count DESC LIMIT 1;"),
   ("Most common food types",
    "SELECT food_type, COUNT(*) AS count_type FROM food_listings GROUP BY food_type ORDER BY count_type DESC;"),
   ("Claims per food item",
    "SELECT f.food_id, f.food_name, COUNT(c.claim_id) AS claims_count FROM food_listings f LEFT JOIN claims c ON f.food_id = c.food_id GROUP BY f.food_id, f.food_name ORDER BY claims_count DESC;"),
   ("Top provider by successful claims",
    "SELECT p.provider_id, p.name, COUNT(c.claim_id) AS successful_claims FROM claims c JOIN food_listings f ON c.food_id = f.food_id JOIN providers p ON f.provider_id = p.provider_id WHERE c.status = 'Completed' GROUP BY p.provider_id, p.name ORDER BY successful_claims DESC LIMIT 1;"),
   ("Percentage of claim statuses",
    "SELECT status, ROUND((COUNT(*) * 100.0)/(SELECT COUNT(*) FROM claims),2) AS percentage FROM claims GROUP BY status;"),
   ("Average quantity claimed per receiver",
    "SELECT r.receiver_id, r.name, ROUND(AVG(f.quantity),2) AS avg_quantity FROM claims c JOIN food_listings f ON c.food_id = f.food_id JOIN receivers r ON c.receiver_id = r.receiver_id GROUP BY r.receiver_id, r.name ORDER BY avg_quantity DESC;"),
   ("Most claimed meal type",
    "SELECT f.meal_type, COUNT(c.claim_id) AS claims_count FROM claims c JOIN food_listings f ON c.food_id = f.food_id GROUP BY f.meal_type ORDER BY claims_count DESC LIMIT 1;"),
   ("Total quantity donated by each provider",
    "SELECT p.provider_id, p.name, SUM(f.quantity) AS total_donated FROM food_listings f JOIN providers p ON f.provider_id = p.provider_id GROUP BY p.provider_id, p.name ORDER BY total_donated DESC;"),
   ("Expired but unclaimed food items",
    "SELECT f.food_id, f.food_name, f.expiry_date, f.quantity FROM food_listings f LEFT JOIN claims c ON f.food_id = c.food_id WHERE f.expiry_date < CURRENT_DATE AND c.claim_id IS NULL;")]

/-- Characters that may continue a named bind parameter in SQLAlchemy text. -/
def isIdentChar (c : Char) : Bool := c.isAlphanum || c = '_'

/-- The named bind parameters (`:name`) occurring in a SQL text, in order. -/
def scanNamedParams : List Char → List String
  | [] => []
  | ':' :: c :: rest =>
    if c.isAlpha then
      (c :: rest.takeWhile isIdentChar).asString :: scanNamedParams rest
    else scanNamedParams (c :: rest)
  | _ :: rest => scanNamedParams rest

/-- The external runtime parameters a SQL template requires. -/
def namedParamsOf (s : String) : List String := scanNamedParams s.data

/-! ### The SQL text and parameter set assembled by
`get_filtered_food_listings` -/

/-- The fixed SELECT/JOIN/WHERE head of the filtered-listing statement. -/
def filteredListingBaseSQL : String :=
  "\n    SELECT fl.food_id, fl.food_name, fl.quantity, fl.expiry_date,\n           fl.location AS city, fl.food_type, fl.meal_type,\n           p.provider_id, p.name AS provider_name, p.contact AS provider_contact\n    FROM food_listings fl\n    JOIN providers p ON p.provider_id = fl.provider_id\n    WHERE 1=1\n    "

/-- The statement text and named-parameter mapping assembled by
`get_filtered_food_listings`: one ` AND col = :name` fragment and one bound
parameter per non-sentinel dimension, then the ORDER BY tail. -/
def buildFilteredListingSQL (city provider food_type meal_type : String) :
    String × List (String × String) :=
  let sql₁ := if city ≠ "(All)" then
      filteredListingBaseSQL ++ " AND fl.location = :city"
    else filteredListingBaseSQL
  let ps₁ : List (String × String) :=
    if city ≠ "(All)" then [("city", city)] else []
  let sql₂ := if provider ≠ "(All)" then sql₁ ++ " AND p.name = :provider"
    else sql₁
  let ps₂ := if provider ≠ "(All)" then ps₁ ++ [("provider", provider)] else ps₁
  let sql₃ := if food_type ≠ "(All)" then sql₂ ++ " AND fl.food_type = :food_type"
    else sql₂
  let ps₃ := if food_type ≠ "(All)" then ps₂ ++ [("food_type", food_type)]
    else ps₂
  let sql₄ := if meal_type ≠ "(All)" then sql₃ ++ " AND fl.meal_type = :meal_type"
    else sql₃
  let ps₄ := if meal_type ≠ "(All)" then ps₃ ++ [("meal_type", meal_type)]
    else ps₃
  (sql₄ ++ " ORDER BY fl.expiry_date ASC, fl.quantity DESC;", ps₄)

/-- The assembled statement text as a function of the sentinel pattern alone
(true = that dimension is "(All)"). -/
def sqlTextOfPattern (bc bp bf bm : Bool) : String :=
  filteredListingBaseSQL ++
    (if bc then "" else " AND fl.location = :city") ++
    (if bp then "" else " AND p.name = :provider") ++
    (if bf then "" else " AND fl.food_type = :food_type") ++
    (if bm then "" else " AND fl.meal_type = :meal_type") ++
    " ORDER BY fl.expiry_date ASC, fl.quantity DESC;"

/-! ### Theorems -/

theorem providerContactsCityParam_def (city : String) (cities : List String) :
    providerContactsCityParam city cities =
      if city ≠ "(All)" then city else cities.headD "" := by
  unfold providerContactsCityParam
  cases cities <;> rfl

/-- On a key conflict, `upsertOnConflict` keeps the row count, puts the new row
in the table, and every row of the result is either the new row (where the key
matched) or an untouched old row.  Requires that the `DO UPDATE SET` assignment
rewrites a key-matching row into exactly the new row. -/
theorem upsertOnConflict_conflict {key : α → Nat} {set : α → α → α}
    (hset : ∀ r x, key r = key x → set r x = x)
    (rows : List α) (x : α) (hex : ∃ r ∈ rows, key r = key x) :
    (upsertOnConflict key set rows x).length = rows.length ∧
    x ∈ upsertOnConflict key set rows x ∧
    ∀ r ∈ upsertOnConflict key set rows x,
      (key r = key x → r = x) ∧ (key r ≠ key x → r ∈ rows) := by
  obtain ⟨r₀, hr₀, hk₀⟩ := hex
  have hany : rows.any (fun r => decide (key r = key x)) = true :=
    List.any_eq_true.mpr ⟨r₀, hr₀, by simpa using hk₀⟩
  unfold upsertOnConflict
  rw [if_pos hany]
  refine ⟨List.length_map _ _, ?_, ?_⟩
  · exact List.mem_map.mpr ⟨r₀, hr₀, by rw [if_pos hk₀, hset _ _ hk₀]⟩
  · intro r hr
    obtain ⟨s, hs, rfl⟩ := List.mem_map.mp hr
    by_cases hks : key s = key x
    · rw [if_pos hks, hset _ _ hks]
      exact ⟨fun _ => rfl, fun hne => absurd rfl hne⟩
    · rw [if_neg hks]
      exact ⟨fun h => absurd h hks, fun _ => hs⟩

/-- With no key conflict, `upsertOnConflict` appends exactly the new row. -/
theorem upsertOnConflict_fresh {key : α → Nat} {set : α → α → α}
    (rows : List α) (x : α) (hnone : ∀ r ∈ rows, key r ≠ key x) :
    upsertOnConflict key set rows x = rows ++ [x] := by
  have hany : rows.any (fun r => decide (key r = key x)) = false := by
    rw [List.any_eq_false]
    intro r hr
    simpa using hnone r hr
  unfold upsertOnConflict
  rw [if_neg (by simp [hany])]

theorem provider_set_eq (old new : Provider)
    (h : old.provider_id = new.provider_id) :
    ({ old with name := new.name, type := new.type, address := new.address,
                city := new.city, contact := new.contact } : Provider) = new := by
  cases old; cases new; simp_all

theorem foodListing_set_eq (old new : FoodListing)
    (h : old.food_id = new.food_id) :
    ({ old with food_name := new.food_name, quantity := new.quantity,
                expiry_date := new.expiry_date, provider_id := new.provider_id,
                provider_type := new.provider_type, location := new.location,
                food_type := new.food_type, meal_type := new.meal_type } :
      FoodListing) = new := by
  cases old; cases new; simp_all

theorem claim_set_eq (old new : ClaimRow)
    (h : old.claim_id = new.claim_id) :
    ({ old with food_id := new.food_id, receiver_id := new.receiver_id,
                status := new.status, timestamp := new.timestamp } : ClaimRow) =
      new := by
  cases old; cases new; simp_all

/-- C2: for each entity (Provider, FoodListing, Claim), upserting into a store
that already holds a row with the new row's primary key keeps the row count,
rewrites every key-matching row into exactly the new row (all non-key columns
replaced) and leaves every other row untouched; upserting a fresh primary key
appends exactly one new row. -/
theorem upsert_replaces_or_inserts
    (ps : List Provider) (p : Provider) (fs : List FoodListing)
    (f : FoodListing) (cs : List ClaimRow) (c : ClaimRow) :
    (((∃ r ∈ ps, r.provider_id = p.provider_id) →
        (upsertProvider ps p).length = ps.length ∧ p ∈ upsertProvider ps p ∧
        ∀ r ∈ upsertProvider ps p,
          (r.provider_id = p.provider_id → r = p) ∧
          (r.provider_id ≠ p.provider_id → r ∈ ps)) ∧
      ((∀ r ∈ ps, r.provider_id ≠ p.provider_id) →
        upsertProvider ps p = ps ++ [p])) ∧
    (((∃ r ∈ fs, r.food_id = f.food_id) →
        (upsertFoodListing fs f).length = fs.length ∧
        f ∈ upsertFoodListing fs f ∧
        ∀ r ∈ upsertFoodListing fs f,
          (r.food_id = f.food_id → r = f) ∧ (r.food_id ≠ f.food_id → r ∈ fs)) ∧
      ((∀ r ∈ fs, r.food_id ≠ f.food_id) →
        upsertFoodListing fs f = fs ++ [f])) ∧
    (((∃ r ∈ cs, r.claim_id = c.claim_id) →
        (upsertClaim cs c).length = cs.length ∧ c ∈ upsertClaim cs c ∧
        ∀ r ∈ upsertClaim cs c,
          (r.claim_id = c.claim_id → r = c) ∧
          (r.claim_id ≠ c.claim_id → r ∈ cs)) ∧
      ((∀ r ∈ cs, r.claim_id ≠ c.claim_id) → upsertClaim cs c = cs ++ [c])) := by
  refine ⟨⟨fun hex => ?_, fun hnone => ?_⟩,
          ⟨fun hex => ?_, fun hnone => ?_⟩,
          ⟨fun hex => ?_, fun hnone => ?_⟩⟩
  · exact upsertOnConflict_conflict (fun r x h => provider_set_eq r x h) ps p hex
  · exact upsertOnConflict_fresh ps p hnone
  · exact upsertOnConflict_conflict (fun r x h => foodListing_set_eq r x h) fs f hex
  · exact upsertOnConflict_fresh fs f hnone
  · exact upsertOnConflict_conflict (fun r x h => claim_set_eq r x h) cs c hex
  · exact upsertOnConflict_fresh cs c hnone

theorem upsert_replaces_or_inserts_witness :
    (upsertProvider [exProviderOld] exProviderNew).length = 1 ∧
    exProviderNew ∈ upsertProvider [exProviderOld] exProviderNew ∧
    upsertFoodListing [] exListing = [exListing] ∧
    upsertClaim [] exClaim = [exClaim] := by
  have h := upsert_replaces_or_inserts [exProviderOld] exProviderNew
    [] exListing [] exClaim
  have h₁ := h.1.1 ⟨exProviderOld, by simp, by decide⟩
  have h₂ := h.2.1.2 (by simp)
  have h₃ := h.2.2.2 (by simp)
  exact ⟨h₁.1, h₁.2.1, by simpa using h₂, by simpa using h₃⟩

/-- C6: `updateFoodListingQuantity` touches only the quantity column of rows
whose food_id matches: the providers, receivers and claims tables are
unchanged, the food_listings row count is unchanged, and at every position the
row keeps every column except quantity, which becomes the new value exactly on
the matching food_id. -/
theorem updateQuantity_frame (db : DB) (id qty : Nat) :
    (updateFoodListingQuantity db id qty).providers = db.providers ∧
    (updateFoodListingQuantity db id qty).receivers = db.receivers ∧
    (updateFoodListingQuantity db id qty).claims = db.claims ∧
    (updateFoodListingQuantity db id qty).food_listings.length =
      db.food_listings.length ∧
    ∀ i : Nat, ∀ fl, db.food_listings[i]? = some fl →
      ∃ fl', (updateFoodListingQuantity db id qty).food_listings[i]? = some fl' ∧
        fl'.food_id = fl.food_id ∧ fl'.food_name = fl.food_name ∧
        fl'.expiry_date = fl.expiry_date ∧ fl'.provider_id = fl.provider_id ∧
        fl'.provider_type = fl.provider_type ∧ fl'.location = fl.location ∧
        fl'.food_type = fl.food_type ∧ fl'.meal_type = fl.meal_type ∧
        (fl.food_id = id → fl'.quantity = qty) ∧
        (fl.food_id ≠ id → fl'.quantity = fl.quantity) := by
  refine ⟨rfl, rfl, rfl, List.length_map _ _, ?_⟩
  intro i fl h
  refine ⟨if fl.food_id = id then { fl with quantity := qty } else fl, ?_, ?_⟩
  · show (db.food_listings.map _)[i]? = _
    rw [List.getElem?_map, h]
    rfl
  · by_cases hfl : fl.food_id = id <;> simp [hfl]

theorem updateQuantity_frame_witness :
    (updateFoodListingQuantity exDB 7 50).providers = exDB.providers ∧
    ∃ fl', (updateFoodListingQuantity exDB 7 50).food_listings[0]? = some fl' ∧
      fl'.food_name = exListing.food_name ∧ fl'.quantity = 50 := by
  have h := updateQuantity_frame exDB 7 50
  obtain ⟨fl', hget, _, hname, hrest⟩ := h.2.2.2.2 0 exListing rfl
  obtain ⟨_, _, _, _, _, _, hq, -⟩ := hrest
  exact ⟨h.1, fl', hget, hname, hq rfl⟩

/-- C7: when the city filter selection is the "(All)" sentinel, the city
parameter bound for the "Provider contacts by city" analysis is the head of the
city option list, or "" when that list is empty; a non-sentinel selection is
passed through unchanged. -/
theorem providerContactsCityParam_spec (city : String) (cities : List String) :
    (city = "(All)" →
      (cities = [] → providerContactsCityParam city cities = "") ∧
      ∀ c rest, cities = c :: rest → providerContactsCityParam city cities = c) ∧
    (city ≠ "(All)" → providerContactsCityParam city cities = city) := by
  constructor
  · intro hc
    subst hc
    constructor
    · intro h; subst h; rfl
    · intro c rest h; subst h; rfl
  · intro hc
    unfold providerContactsCityParam
    rw [if_pos hc]

theorem providerContactsCityParam_spec_witness :
    providerContactsCityParam "(All)" ["Agra", "Delhi"] = "Agra" ∧
    providerContactsCityParam "(All)" [] = "" ∧
    providerContactsCityParam "Pune" ["Agra"] = "Pune" :=
  ⟨((providerContactsCityParam_spec "(All)" ["Agra", "Delhi"]).1 rfl).2
      "Agra" ["Delhi"] rfl,
    ((providerContactsCityParam_spec "(All)" []).1 rfl).1 rfl,
    (providerContactsCityParam_spec "Pune" ["Agra"]).2 (by decide)⟩

theorem listingLE_trans (a b c : ListingRow) (h₁ : listingLE a b)
    (h₂ : listingLE b c) : listingLE a c := by
  unfold listingLE at *
  simp only [Bool.or_eq_true, Bool.and_eq_true, decide_eq_true_eq] at *
  omega

theorem listingLE_total (a b : ListingRow) : listingLE a b || listingLE b a := by
  unfold listingLE
  simp only [Bool.or_eq_true, Bool.and_eq_true, decide_eq_true_eq]
  omega

theorem mem_joinListingsProviders {db : DB} {r : ListingRow} :
    r ∈ joinListingsProviders db ↔
      ∃ fl ∈ db.food_listings, ∃ p ∈ db.providers,
        p.provider_id = fl.provider_id ∧ r = rowOf fl p := by
  unfold joinListingsProviders
  simp only [List.mem_flatMap, List.mem_map, List.mem_filter,
    decide_eq_true_eq]
  constructor
  · rintro ⟨fl, hfl, p, ⟨hp, hid⟩, rfl⟩
    exact ⟨fl, hfl, p, hp, hid, rfl⟩
  · rintro ⟨fl, hfl, p, hp, hid, rfl⟩
    exact ⟨fl, hfl, p, ⟨hp, hid⟩, rfl⟩

theorem matchesFilters_iff {city provider food_type meal_type : String}
    {r : ListingRow} :
    matchesFilters city provider food_type meal_type r = true ↔
      (city ≠ "(All)" → r.city = some city) ∧
      (provider ≠ "(All)" → r.provider_name = some provider) ∧
      (food_type ≠ "(All)" → r.food_type = some food_type) ∧
      (meal_type ≠ "(All)" → r.meal_type = some meal_type) := by
  unfold matchesFilters
  simp only [Bool.and_eq_true, Bool.or_eq_true, decide_eq_true_eq,
    or_iff_not_imp_left]
  tauto

theorem mem_get_filtered_iff {db : DB} {city provider food_type meal_type : String}
    {r : ListingRow} :
    r ∈ get_filtered_food_listings db city provider food_type meal_type ↔
      (∃ fl ∈ db.food_listings, ∃ p ∈ db.providers,
        p.provider_id = fl.provider_id ∧ r = rowOf fl p) ∧
      (city ≠ "(All)" → r.city = some city) ∧
      (provider ≠ "(All)" → r.provider_name = some provider) ∧
      (food_type ≠ "(All)" → r.food_type = some food_type) ∧
      (meal_type ≠ "(All)" → r.meal_type = some meal_type) := by
  unfold get_filtered_food_listings
  rw [List.mem_mergeSort, List.mem_filter, mem_joinListingsProviders,
    matchesFilters_iff]

/-- C1: the filtered listing query returns exactly the joined rows that satisfy
the equality predicate of every non-sentinel dimension (sentinel "(All)"
dimensions impose no constraint), ordered by expiry date ascending with ties by
quantity descending. -/
theorem filteredListings_spec (db : DB)
    (city provider food_type meal_type : String) :
    (∀ r, r ∈ get_filtered_food_listings db city provider food_type meal_type ↔
      (∃ fl ∈ db.food_listings, ∃ p ∈ db.providers,
        p.provider_id = fl.provider_id ∧ r = rowOf fl p) ∧
      (city ≠ "(All)" → r.city = some city) ∧
      (provider ≠ "(All)" → r.provider_name = some provider) ∧
      (food_type ≠ "(All)" → r.food_type = some food_type) ∧
      (meal_type ≠ "(All)" → r.meal_type = some meal_type)) ∧
    (get_filtered_food_listings db city provider food_type meal_type).Pairwise
      fun a b => a.expiry_date < b.expiry_date ∨
        (a.expiry_date = b.expiry_date ∧ b.quantity ≤ a.quantity) := by
  constructor
  · intro r
    exact mem_get_filtered_iff
  · have h : (((joinListingsProviders db).filter
          (matchesFilters city provider food_type meal_type)).mergeSort
          listingLE).Pairwise fun a b => listingLE a b = true :=
      List.sorted_mergeSort listingLE_trans listingLE_total
        ((joinListingsProviders db).filter
          (matchesFilters city provider food_type meal_type))
    refine h.imp fun {a b} hab => ?_
    unfold listingLE at hab
    simpa only [Bool.or_eq_true, Bool.and_eq_true, decide_eq_true_eq] using hab

theorem filteredListings_spec_witness :
    rowOf exListing exProviderOld ∈
      get_filtered_food_listings exDB "(All)" "(All)" "(All)" "(All)" :=
  ((filteredListings_spec exDB "(All)" "(All)" "(All)" "(All)").1 _).mpr
    ⟨⟨exListing, by simp [exDB], exProviderOld, by simp [exDB], by decide, rfl⟩,
      fun h => absurd rfl h, fun h => absurd rfl h, fun h => absurd rfl h,
      fun h => absurd rfl h⟩

/-- C10: every row returned by the filtered-listing query joins a food listing
with the provider row whose provider_id it references, and carries that
provider's name and contact; a listing referencing no existing provider never
contributes a row. -/
theorem filteredListings_provider_integrity (db : DB)
    (city provider food_type meal_type : String) (r : ListingRow)
    (hr : r ∈ get_filtered_food_listings db city provider food_type meal_type) :
    ∃ p ∈ db.providers, ∃ fl ∈ db.food_listings,
      p.provider_id = fl.provider_id ∧ r.provider_id = p.provider_id ∧
      r.provider_name = p.name ∧ r.provider_contact = p.contact ∧
      r.food_id = fl.food_id := by
  obtain ⟨⟨fl, hfl, p, hp, hid, rfl⟩, -⟩ := mem_get_filtered_iff.mp hr
  exact ⟨p, hp, fl, hfl, hid, rfl, rfl, rfl, rfl⟩

theorem filteredListings_provider_integrity_witness :
    ∃ p ∈ exDB.providers, ∃ fl ∈ exDB.food_listings,
      p.provider_id = fl.provider_id ∧
      (rowOf exListing exProviderOld).provider_id = p.provider_id ∧
      (rowOf exListing exProviderOld).provider_name = p.name ∧
      (rowOf exListing exProviderOld).provider_contact = p.contact ∧
      (rowOf exListing exProviderOld).food_id = fl.food_id :=
  filteredListings_provider_integrity exDB "(All)" "(All)" "(All)" "(All)"
    (rowOf exListing exProviderOld)
    (mem_get_filtered_iff.mpr
      ⟨⟨exListing, by simp [exDB], exProviderOld, by simp [exDB], by decide,
          rfl⟩,
        fun h => absurd rfl h, fun h => absurd rfl h, fun h => absurd rfl h,
        fun h => absurd rfl h⟩)

theorem mem_distinctNonNullSorted {vals : List (Option String)} {s : String} :
    s ∈ distinctNonNullSorted vals ↔ some s ∈ vals := by
  unfold distinctNonNullSorted
  rw [List.mem_mergeSort, List.mem_dedup, List.mem_filterMap]
  simp [id]

theorem nodup_distinctNonNullSorted (vals : List (Option String)) :
    (distinctNonNullSorted vals).Nodup :=
  (List.mergeSort_perm _ _).symm.nodup (List.nodup_dedup _)

theorem stringLE_trans (a b c : String) (hab : decide (a ≤ b) = true)
    (hbc : decide (b ≤ c) = true) : decide (a ≤ c) = true :=
  decide_eq_true (le_trans (of_decide_eq_true hab) (of_decide_eq_true hbc))

theorem stringLE_total (a b : String) :
    (decide (a ≤ b) || decide (b ≤ a)) = true := by
  simpa using le_total a b

theorem sorted_distinctNonNullSorted (vals : List (Option String)) :
    (distinctNonNullSorted vals).Sorted (· ≤ ·) := by
  have h : ((vals.filterMap id).dedup.mergeSort
        fun a b : String => decide (a ≤ b)).Pairwise
        fun a b : String => decide (a ≤ b) = true :=
    List.sorted_mergeSort stringLE_trans stringLE_total
      ((vals.filterMap id).dedup)
  exact h.imp fun hab => of_decide_eq_true hab

theorem distinctNonNullSorted_eq_nil {vals : List (Option String)}
    (h : ∀ v ∈ vals, v = none) : distinctNonNullSorted vals = [] := by
  rw [List.eq_nil_iff_forall_not_mem]
  intro s hs
  exact Option.noConfusion (h _ (mem_distinctNonNullSorted.mp hs))

/-- C3: each of the four filter option lists is the "(All)" sentinel followed
by the deduplicated, NULL-excluded, ascending list of the distinct values of
its dimension (the city list drawing from both provider cities and listing
locations); with zero values the list is exactly ["(All)"]. -/
theorem filter_options_spec (db : DB) :
    (∃ l, cityOptions db = "(All)" :: l ∧ l.Sorted (· ≤ ·) ∧ l.Nodup ∧
      ∀ s, s ∈ l ↔ (some s ∈ db.providers.map (·.city) ∨
        some s ∈ db.food_listings.map (·.location))) ∧
    (∃ l, providerOptions db = "(All)" :: l ∧ l.Sorted (· ≤ ·) ∧ l.Nodup ∧
      ∀ s, s ∈ l ↔ some s ∈ db.providers.map (·.name)) ∧
    (∃ l, foodTypeOptions db = "(All)" :: l ∧ l.Sorted (· ≤ ·) ∧ l.Nodup ∧
      ∀ s, s ∈ l ↔ some s ∈ db.food_listings.map (·.food_type)) ∧
    (∃ l, mealTypeOptions db = "(All)" :: l ∧ l.Sorted (· ≤ ·) ∧ l.Nodup ∧
      ∀ s, s ∈ l ↔ some s ∈ db.food_listings.map (·.meal_type)) ∧
    ((∀ p ∈ db.providers, p.city = none) →
      (∀ f ∈ db.food_listings, f.location = none) →
      cityOptions db = ["(All)"]) ∧
    ((∀ p ∈ db.providers, p.name = none) → providerOptions db = ["(All)"]) ∧
    ((∀ f ∈ db.food_listings, f.food_type = none) →
      foodTypeOptions db = ["(All)"]) ∧
    ((∀ f ∈ db.food_listings, f.meal_type = none) →
      mealTypeOptions db = ["(All)"]) := by
  refine ⟨⟨cities db, rfl, sorted_distinctNonNullSorted _,
      nodup_distinctNonNullSorted _, fun s => ?_⟩,
    ⟨provider_names db, rfl, sorted_distinctNonNullSorted _,
      nodup_distinctNonNullSorted _, fun s => mem_distinctNonNullSorted⟩,
    ⟨food_types db, rfl, sorted_distinctNonNullSorted _,
      nodup_distinctNonNullSorted _, fun s => mem_distinctNonNullSorted⟩,
    ⟨meal_types db, rfl, sorted_distinctNonNullSorted _,
      nodup_distinctNonNullSorted _, fun s => mem_distinctNonNullSorted⟩,
    ?_, ?_, ?_, ?_⟩
  · rw [show (cities db : List String) = distinctNonNullSorted (cityValues db)
      from rfl, mem_distinctNonNullSorted]
    unfold cityValues
    rw [List.mem_append]
  · intro hp hf
    unfold cityOptions cities
    rw [distinctNonNullSorted_eq_nil]
    intro v hv
    rcases List.mem_append.mp hv with h | h <;>
      obtain ⟨x, hx, rfl⟩ := List.mem_map.mp h
    · exact hp x hx
    · exact hf x hx
  · intro hp
    unfold providerOptions provider_names
    rw [distinctNonNullSorted_eq_nil]
    intro v hv
    obtain ⟨x, hx, rfl⟩ := List.mem_map.mp hv
    exact hp x hx
  · intro hf
    unfold foodTypeOptions food_types
    rw [distinctNonNullSorted_eq_nil]
    intro v hv
    obtain ⟨x, hx, rfl⟩ := List.mem_map.mp hv
    exact hf x hx
  · intro hf
    unfold mealTypeOptions meal_types
    rw [distinctNonNullSorted_eq_nil]
    intro v hv
    obtain ⟨x, hx, rfl⟩ := List.mem_map.mp hv
    exact hf x hx

theorem filter_options_spec_witness :
    (∃ l, cityOptions exDB = "(All)" :: l ∧ "Delhi" ∈ l) ∧
    mealTypeOptions emptyDB = ["(All)"] := by
  obtain ⟨⟨l, hl, _, _, hiff⟩, -, -, -, -, -, -, -⟩ := filter_options_spec exDB
  refine ⟨⟨l, hl, (hiff "Delhi").mpr (Or.inl ?_)⟩, ?_⟩
  · simp [exDB, exProviderOld]
  · exact (filter_options_spec emptyDB).2.2.2.2.2.2.2 (by simp [emptyDB])

theorem qCall_miss_ok [DecidableEq κ] {cache : List (CacheEntry κ α)}
    {now : Nat} {k : κ} {e : Unit → Except ε α} {v : α}
    (hmiss : ∀ en ∈ cache, ¬(en.key = k ∧ now < en.storedAt + cacheTTL))
    (hexec : e () = Except.ok v) :
    qCall cache now k e =
      (Except.ok v, ⟨k, v, now⟩ :: cache.filter fun en => !decide (en.key = k)) := by
  have hfind : cache.find? (isFreshFor now k) = none := by
    rw [List.find?_eq_none]
    intro en hen
    simpa [isFreshFor] using hmiss en hen
  unfold qCall
  rw [hfind, hexec]

/-- C4 (amended): after a call that executed the statement and stored its
result, any identical call within 60 seconds of that *store* returns the
stored result and leaves the cache unchanged, whatever the database now holds;
an identical call 60 or more seconds after the store re-executes the statement
and returns the database's current answer. -/
theorem qCall_ttl_spec [DecidableEq κ] (cache : List (CacheEntry κ α))
    (now₁ : Nat) (k : κ) (e₁ : Unit → Except ε α) (v₁ : α)
    (hmiss : ∀ en ∈ cache, ¬(en.key = k ∧ now₁ < en.storedAt + cacheTTL))
    (hexec : e₁ () = Except.ok v₁) :
    (qCall cache now₁ k e₁).1 = Except.ok v₁ ∧
    (∀ (now₂ : Nat) (e₂ : Unit → Except ε α), now₂ < now₁ + 60 →
      qCall (qCall cache now₁ k e₁).2 now₂ k e₂ =
        (Except.ok v₁, (qCall cache now₁ k e₁).2)) ∧
    (∀ (now₂ : Nat) (e₂ : Unit → Except ε α) (v₂ : α), now₁ + 60 ≤ now₂ →
      e₂ () = Except.ok v₂ →
      (qCall (qCall cache now₁ k e₁).2 now₂ k e₂).1 = Except.ok v₂) := by
  have hstep := qCall_miss_ok hmiss hexec
  refine ⟨by rw [hstep], ?_, ?_⟩
  · intro now₂ e₂ hlt
    rw [hstep]
    show qCall (⟨k, v₁, now₁⟩ :: _) now₂ k e₂ = _
    unfold qCall
    rw [List.find?_cons_of_pos _ (by simp [isFreshFor, cacheTTL]; omega)]
  · intro now₂ e₂ v₂ hge hexec₂
    rw [hstep]
    show (qCall (⟨k, v₁, now₁⟩ :: _) now₂ k e₂).1 = _
    unfold qCall
    rw [List.find?_cons_of_neg _ (by simp [isFreshFor, cacheTTL]; omega)]
    have hnone : (cache.filter fun en => !decide (en.key = k)).find?
        (isFreshFor now₂ k) = none := by
      rw [List.find?_eq_none]
      intro en hen
      have hne := (List.mem_filter.mp hen).2
      simp only [Bool.not_eq_eq_eq_not, Bool.not_true, decide_eq_false_iff_not]
        at hne
      simp [isFreshFor, hne]
    rw [hnone, hexec₂]

theorem qCall_ttl_spec_witness :
    (qCall ([] : List (CacheEntry String Nat)) 0 "k" exExecOne).1 =
      Except.ok 1 ∧
    qCall exCache1 59 "k" exExecTwo = (Except.ok 1, exCache1) ∧
    (qCall exCache1 60 "k" exExecTwo).1 = Except.ok 2 := by
  have h := qCall_ttl_spec ([] : List (CacheEntry String Nat)) 0 "k" exExecOne
    1 (by simp) rfl
  exact ⟨h.1, h.2.1 59 exExecTwo (by omega), h.2.2 60 exExecTwo 2 (by omega) rfl⟩

/-- C4 as frozen is refuted by a chain of calls: a call at second 0 stores the
result 1; a call at second 59 is served from the cache; a further call at
second 100 — 41 seconds after that previous identical call — does not return
that call's cached result: the entry stored at second 0 has expired, so the
statement is re-executed and returns the changed answer 2. -/
theorem qCall_ttl_counterexample :
    (qCall exCache1 59 "k" exExecTwo).1 = Except.ok 1 ∧
    (qCall exCache1 59 "k" exExecTwo).2 = exCache1 ∧
    100 - 59 < 60 ∧
    (qCall exCache1 100 "k" exExecTwo).1 = Except.ok 2 ∧
    (Except.ok 2 : Except Unit Nat) ≠ Except.ok 1 := by
  refine ⟨rfl, rfl, by omega, rfl, by simp⟩

/-- C9 (amended): on a cache miss, a failing database execution propagates its
error out of `q` and leaves the cache unchanged, so the caller can re-issue
the identical query and a subsequent successful execution returns its data. -/
theorem qCall_error_spec [DecidableEq κ] (cache : List (CacheEntry κ α))
    (now : Nat) (k : κ) (e : Unit → Except ε α) (err : ε)
    (hmiss : ∀ en ∈ cache, ¬(en.key = k ∧ now < en.storedAt + cacheTTL))
    (hexec : e () = Except.error err) :
    qCall cache now k e = (Except.error err, cache) ∧
    ∀ (e₂ : Unit → Except ε α) (v₂ : α), e₂ () = Except.ok v₂ →
      (qCall cache now k e₂).1 = Except.ok v₂ := by
  have hfind : cache.find? (isFreshFor now k) = none := by
    rw [List.find?_eq_none]
    intro en hen
    simpa [isFreshFor] using hmiss en hen
  constructor
  · unfold qCall
    rw [hfind, hexec]
  · intro e₂ v₂ hexec₂
    unfold qCall
    rw [hfind, hexec₂]

/-- C9 as frozen is refuted: on a failing execution `q` does not return an
empty result set — the error propagates out of the read operation. -/
theorem qCall_error_counterexample :
    (qCall ([] : List (CacheEntry String (List Nat))) 0 "q"
        fun _ => (Except.error () : Except Unit (List Nat))).1 =
      Except.error () ∧
    (Except.error () : Except Unit (List Nat)) ≠ Except.ok [] :=
  ⟨rfl, by simp⟩

theorem qCall_error_spec_witness :
    qCall ([] : List (CacheEntry String Nat)) 3 "sql"
        (fun _ => (Except.error () : Except Unit Nat)) =
      (Except.error (), []) ∧
    (qCall ([] : List (CacheEntry String Nat)) 3 "sql" exExecOne).1 =
      Except.ok 1 := by
  have h := qCall_error_spec ([] : List (CacheEntry String Nat)) 3 "sql"
    (fun _ => (Except.error () : Except Unit Nat)) () (by simp) rfl
  exact ⟨h.1, h.2 exExecOne 1 rfl⟩

/-- C5 as frozen is refuted: the analytics catalog holds fifteen entries, not
fourteen. -/
theorem query_map_counterexample :
    query_map.length = 15 ∧ query_map.length ≠ 14 := by decide

/-- C5 (amended): the analytics catalog is a fixed mapping of exactly fifteen
entries; the SQL template of every entry requires no bound parameter, except
"Provider contacts by city", whose template requires exactly the one bound
parameter `city`. -/
theorem query_map_spec :
    query_map.length = 15 ∧
    ∀ entry ∈ query_map,
      (entry.1 = "Provider contacts by city" →
        namedParamsOf entry.2 = ["city"]) ∧
      (entry.1 ≠ "Provider contacts by city" → namedParamsOf entry.2 = []) := by
  constructor
  · decide
  · decide

theorem query_map_spec_witness :
    namedParamsOf "SELECT name, contact FROM providers WHERE city = :city ORDER BY name;" =
      ["city"] :=
  (query_map_spec.2
      ("Provider contacts by city",
        "SELECT name, contact FROM providers WHERE city = :city ORDER BY name;")
      (by decide)).1 rfl

theorem buildFilteredListingSQL_text (c p f m : String) :
    (buildFilteredListingSQL c p f m).1 =
      sqlTextOfPattern (decide (c = "(All)")) (decide (p = "(All)"))
        (decide (f = "(All)")) (decide (m = "(All)")) := by
  unfold buildFilteredListingSQL sqlTextOfPattern
  by_cases hc : c = "(All)" <;> by_cases hp : p = "(All)" <;>
    by_cases hf : f = "(All)" <;> by_cases hm : m = "(All)" <;>
    simp [hc, hp, hf, hm, String.append_assoc]

/-- C8: the assembled SQL text depends only on which dimensions carry the
"(All)" sentinel — two selections with the same sentinel pattern yield
character-identical SQL — and the bound-parameter mapping holds exactly the
non-sentinel values under their dimension names, so no user-supplied value
reaches the SQL text. -/
theorem filtered_sql_parameterized :
    (∀ c₁ p₁ f₁ m₁ c₂ p₂ f₂ m₂ : String,
      ((c₁ = "(All)") ↔ (c₂ = "(All)")) → ((p₁ = "(All)") ↔ (p₂ = "(All)")) →
      ((f₁ = "(All)") ↔ (f₂ = "(All)")) → ((m₁ = "(All)") ↔ (m₂ = "(All)")) →
      (buildFilteredListingSQL c₁ p₁ f₁ m₁).1 =
        (buildFilteredListingSQL c₂ p₂ f₂ m₂).1) ∧
    (∀ c p f m n v : String,
      (n, v) ∈ (buildFilteredListingSQL c p f m).2 ↔
        ((n = "city" ∧ v = c ∧ c ≠ "(All)") ∨
         (n = "provider" ∧ v = p ∧ p ≠ "(All)") ∨
         (n = "food_type" ∧ v = f ∧ f ≠ "(All)") ∨
         (n = "meal_type" ∧ v = m ∧ m ≠ "(All)"))) := by
  constructor
  · intro c₁ p₁ f₁ m₁ c₂ p₂ f₂ m₂ hc hp hf hm
    rw [buildFilteredListingSQL_text, buildFilteredListingSQL_text,
      decide_eq_decide.mpr hc, decide_eq_decide.mpr hp,
      decide_eq_decide.mpr hf, decide_eq_decide.mpr hm]
  · intro c p f m n v
    unfold buildFilteredListingSQL
    by_cases hc : c = "(All)" <;> by_cases hp : p = "(All)" <;>
      by_cases hf : f = "(All)" <;> by_cases hm : m = "(All)" <;>
      simp [hc, hp, hf, hm, Prod.ext_iff]

theorem filtered_sql_parameterized_witness :
    (buildFilteredListingSQL "Delhi" "(All)" "(All)" "(All)").1 =
      (buildFilteredListingSQL "x); DROP TABLE providers; --" "(All)" "(All)"
          "(All)").1 ∧
    ("city", "Delhi") ∈ (buildFilteredListingSQL "Delhi" "(All)" "(All)"
        "(All)").2 :=
  ⟨filtered_sql_parameterized.1 "Delhi" "(All)" "(All)" "(All)"
      "x); DROP TABLE providers; --" "(All)" "(All)" "(All)"
      (by decide) Iff.rfl Iff.rfl Iff.rfl,
    (filtered_sql_parameterized.2 "Delhi" "(All)" "(All)" "(All)" "city"
        "Delhi").mpr (Or.inl ⟨rfl, rfl, by decide⟩)⟩

end LocalFood
